import Mathlib

/-!
Verification of the hub registration manager (`pkg/registration/hub/manager.go`)
of the open-cluster-management hub control plane.

The wiring file `manager.go` is embedded directly: the CSR-schema selection
logic of `RunControllerManager` (lines 108-145), the construction of the
approval-policy chain, and the list of controllers started with their worker
counts.  The bodies of the policy reconcilers, the approval dispatcher and the
heartbeat/liveness machine live in packages that are not part of the excerpt,
so those are modelled from the specification, as marked on each definition.
-/

namespace Hub

/-- The two request-object schema variants: `current` is the v1
CertificateSigningRequest API, `legacy` the v1beta1 API. -/
inductive SchemaVariant where
  | current : SchemaVariant
  | legacy : SchemaVariant
deriving DecidableEq, Repr

/-- Result of `helpers.IsCSRSupported(kubeClient)`: either the pair of support
booleans `(v1CSRSupported, v1beta1CSRSupported)`, or a discovery error with its
message. -/
inductive ProbeResult where
  | ok : Bool → Bool → ProbeResult
  | failed : String → ProbeResult
deriving DecidableEq, Repr

/-- The feature gates consulted by `RunControllerManager`:
`ManagedClusterAutoApproval`, `V1beta1CSRAPICompatibility`, and
`DefaultClusterSet`, read from `features.DefaultHubRegistrationMutableFeatureGate`. -/
structure FeatureGates where
  managedClusterAutoApproval : Bool
  v1beta1CSRAPICompatibility : Bool
  defaultClusterSet : Bool
deriving DecidableEq, Repr

/-- Error wrapping: `errors.Wrapf(err, "failed CSR api discovery")` produces a message that
prefixes the original error. -/
def wrapDiscoveryError (msg : String) : String :=
  "failed CSR api discovery: " ++ msg

/-- Lines 119-136 of `manager.go`: the value held by the variable
`csrController` after the first `if` block.  When the
`V1beta1CSRAPICompatibility` gate is enabled the probe result is examined; a
probe error aborts with the wrapped error; the legacy (v1beta1) controller is
assigned only when v1 is unsupported and v1beta1 is supported.  Otherwise the
variable stays `none`. -/
def legacyControllerPhase (gates : FeatureGates) (probe : ProbeResult) :
    Except String (Option SchemaVariant) :=
  if gates.v1beta1CSRAPICompatibility then
    match probe with
    | ProbeResult.failed msg => Except.error (wrapDiscoveryError msg)
    | ProbeResult.ok v1Supported v1beta1Supported =>
      if !v1Supported && v1beta1Supported then
        Except.ok (some SchemaVariant.legacy)
      else
        Except.ok none
  else
    Except.ok none

/-- Lines 119-145 of `manager.go`: the full selection.  After the legacy phase,
`if csrController == nil` (line 137) constructs the current (v1) approving
controller.  The result is the list of CSR approving controllers constructed,
so that "exactly one controller" is a provable property rather than an
assumption. -/
def constructedCSRControllers (gates : FeatureGates) (probe : ProbeResult) :
    Except String (List SchemaVariant) :=
  match legacyControllerPhase gates probe with
  | Except.error e => Except.error e
  | Except.ok (some v) => Except.ok [v]
  | Except.ok none => Except.ok [SchemaVariant.current]

/-- Number of calls to `helpers.IsCSRSupported` made by `RunControllerManager`:
the single call site at line 121 sits inside the
`V1beta1CSRAPICompatibility` branch, and there is no loop around it. -/
def probeCalls (gates : FeatureGates) : Nat :=
  if gates.v1beta1CSRAPICompatibility then 1 else 0

/-- Identifiers of the CSR approval policy reconcilers. -/
inductive PolicyId where
  | renewal : PolicyId
  | bootstrap : PolicyId
deriving DecidableEq, Repr

/-- Lines 108-117 of `manager.go`: the `csrReconciles` slice starts as
`[NewCSRRenewalReconciler...]` and the bootstrap reconciler is appended
exactly when the `ManagedClusterAutoApproval` gate is enabled.  The list is a
function of the gates alone, built once before the approving controller is
constructed. -/
def csrReconciles (gates : FeatureGates) : List PolicyId :=
  let base := [PolicyId.renewal]
  if gates.managedClusterAutoApproval then
    base ++ [PolicyId.bootstrap]
  else
    base

/-- Lines 219-232 of `manager.go`: every controller is started via
`go c.Run(ctx, 1)`.  Each entry is the name of a controller paired with the
worker count passed to `Run`; the two `DefaultClusterSet` controllers are
started only when that gate is enabled (lines 229-232). -/
def startedControllers (gates : FeatureGates) : List (String × Nat) :=
  [("managedClusterController", 1),
   ("taintController", 1),
   ("csrController", 1),
   ("leaseController", 1),
   ("rbacFinalizerController", 1),
   ("managedClusterSetController", 1),
   ("managedClusterSetBindingController", 1),
   ("clusterroleController", 1),
   ("addOnHealthCheckController", 1),
   ("addOnFeatureDiscoveryController", 1)] ++
  (if gates.defaultClusterSet then
    [("defaultManagedClusterSetController", 1),
     ("globalManagedClusterSetController", 1)]
   else [])

/-- Outcome of one policy evaluation (spec §3, ApprovalDecision). -/
inductive Outcome where
  | approve : Outcome
  | deny : Outcome
  | noOpinion : Outcome
deriving DecidableEq, Repr

/-- Decision state of a registration request (spec §3). -/
inductive DecisionState where
  | pending : DecisionState
  | approved : DecisionState
  | denied : DecisionState
deriving DecidableEq, Repr

/-- A registration request as the policies see it (spec §3): requester
identity, requested key usages, requested organization claims, and the
decision state. -/
structure RegistrationRequest where
  requester : String
  usages : List String
  orgs : List String
  decision : DecisionState
deriving DecidableEq, Repr

/-- Configuration of the bootstrap auto-approval policy: the operator-supplied
allow-list (`ClusterAutoApprovalUsers`, manager.go line 114) and the expected
spoke-bootstrap profile. -/
structure BootstrapConfig where
  allowList : List String
  expectedOrgs : List String
  expectedUsages : List String
deriving DecidableEq, Repr

/-- Modelled from the spec: the body of `csr.NewCSRBootstrapReconciler` is not
part of the excerpt.  Spec §4.4: "Approve iff both conditions hold" — the
requester identity is a member of the allow-list and the requested
organization/usages exactly match the expected spoke-bootstrap profile —
"otherwise NoOpinion — never Approve on partial match". -/
def bootstrapEvaluate (cfg : BootstrapConfig) (req : RegistrationRequest) :
    Outcome :=
  if req.requester ∈ cfg.allowList
      ∧ req.orgs = cfg.expectedOrgs
      ∧ req.usages = cfg.expectedUsages then
    Outcome.approve
  else
    Outcome.noOpinion

/-- Modelled from the spec: the renewal reconciler body
(`csr.NewCSRRenewalReconciler`) is not part of the excerpt.  Spec §4.3:
approve when the request exactly matches the profile granted to an accepted
cluster, otherwise NoOpinion.  The accepted profiles are given as a list of
(requester, orgs, usages) triples. -/
def renewalEvaluate (accepted : List (String × List String × List String))
    (req : RegistrationRequest) : Outcome :=
  if (req.requester, req.orgs, req.usages) ∈ accepted then
    Outcome.approve
  else
    Outcome.noOpinion

/-- One policy step of the chain, dispatching on the policy identifier. -/
def evalPolicy (accepted : List (String × List String × List String))
    (cfg : BootstrapConfig) (p : PolicyId) (req : RegistrationRequest) :
    Outcome :=
  match p with
  | PolicyId.renewal => renewalEvaluate accepted req
  | PolicyId.bootstrap => bootstrapEvaluate cfg req

/-- Modelled from the spec: the approving controller body
(`csr.NewCSRApprovingController`) is not part of the excerpt.  Spec §4.2: the
dispatcher invokes the ordered list of policy reconcilers, "stopping at the
first definitive Approve/Deny"; if all return NoOpinion the request stays
Pending. -/
def chainOutcome (accepted : List (String × List String × List String))
    (cfg : BootstrapConfig) (policies : List PolicyId)
    (req : RegistrationRequest) : Outcome :=
  match policies with
  | [] => Outcome.noOpinion
  | p :: rest =>
    match evalPolicy accepted cfg p req with
    | Outcome.approve => Outcome.approve
    | Outcome.deny => Outcome.deny
    | Outcome.noOpinion => chainOutcome accepted cfg rest req

/-- Modelled from the spec: spec §4.2, idempotence requirement — the terminal
write is "guarded by a conditional write on current decision state", so a
request that is already Approved or Denied is left untouched.  Returns the
updated request and the number of decision writes issued (0 or 1). -/
def runChain (accepted : List (String × List String × List String))
    (cfg : BootstrapConfig) (policies : List PolicyId)
    (req : RegistrationRequest) : RegistrationRequest × Nat :=
  match req.decision with
  | DecisionState.pending =>
    match chainOutcome accepted cfg policies req with
    | Outcome.approve =>
      (⟨req.requester, req.usages, req.orgs, DecisionState.approved⟩, 1)
    | Outcome.deny =>
      (⟨req.requester, req.usages, req.orgs, DecisionState.denied⟩, 1)
    | Outcome.noOpinion => (req, 0)
  | DecisionState.approved => (req, 0)
  | DecisionState.denied => (req, 0)

/-- The request state after `n` re-invocations of the approval chain on the
same request (each invocation observing the state left by the previous one). -/
def chainIter (accepted : List (String × List String × List String))
    (cfg : BootstrapConfig) (policies : List PolicyId)
    (req : RegistrationRequest) : Nat → RegistrationRequest
  | 0 => req
  | Nat.succ n =>
    (runChain accepted cfg policies (chainIter accepted cfg policies req n)).1

/-- Availability state of a spoke cluster (spec §3). -/
inductive Availability where
  | unknown : Availability
  | available : Availability
  | unreachable : Availability
deriving DecidableEq, Repr

/-- Modelled from the spec: the lease/taint controller bodies are not part of
the excerpt.  Spec §4.5, evaluated on each reconciliation with
`age = now - lastRenewTime`: if `age > T` and availability is not Unreachable,
transition to Unreachable (if already Unreachable it stays so); if `age ≤ T`
and availability is Unreachable, transition to Available; a first heartbeat
takes Unknown to Available. -/
def livenessStep (T : Nat) (age : Nat) (a : Availability) : Availability :=
  if T < age then
    Availability.unreachable
  else
    match a with
    | Availability.unreachable => Availability.available
    | Availability.unknown => Availability.available
    | Availability.available => Availability.available

/-- The availability sequence produced by evaluating the liveness machine on
successive heartbeat ages, starting from a given state: element `i` is the
state after consuming ages `0..i`. -/
def livenessTrace (T : Nat) (a : Availability) :
    List Nat → List Availability
  | [] => []
  | age :: rest =>
    livenessStep T age a :: livenessTrace T (livenessStep T age a) rest

/-! ## Helper lemmas -/

/-- Re-invoking the chain on a request whose decision is terminal is a no-op
issuing no write. -/
theorem runChain_of_terminal
    (accepted : List (String × List String × List String))
    (cfg : BootstrapConfig) (policies : List PolicyId)
    (req : RegistrationRequest) (h : req.decision ≠ DecisionState.pending) :
    runChain accepted cfg policies req = (req, 0) := by
  unfold runChain
  cases hd : req.decision with
  | pending => exact absurd hd h
  | approved => rfl
  | denied => rfl

/-- Once an iterate of the chain is terminal, all later iterates are equal to
it. -/
theorem chainIter_stable
    (accepted : List (String × List String × List String))
    (cfg : BootstrapConfig) (policies : List PolicyId)
    (req : RegistrationRequest) (i : Nat)
    (h : (chainIter accepted cfg policies req i).decision ≠
      DecisionState.pending) :
    ∀ n, chainIter accepted cfg policies req (i + n) =
      chainIter accepted cfg policies req i := by
  intro n
  induction n with
  | zero => rfl
  | succ m ih =>
    have hstep : chainIter accepted cfg policies req (i + (m + 1)) =
        (runChain accepted cfg policies
          (chainIter accepted cfg policies req (i + m))).1 := rfl
    rw [hstep, ih, runChain_of_terminal accepted cfg policies _ h]

/-! ## Claim theorems -/

/-- C1: The Bootstrap Auto-Approval Policy returns Approve if and only if the
requester is a member of the allow-list and the requested organization and
usages exactly match the expected spoke-bootstrap profile; for every requester
not in the allow-list the result is NoOpinion regardless of all other request
fields.  (The evaluator does not consult the feature flag at all — the flag
only gates whether the policy is included in the chain — so the NoOpinion
result for
non-members holds in particular when the flag is enabled.) -/
theorem bootstrap_approve_iff (cfg : BootstrapConfig)
    (req : RegistrationRequest) :
    (bootstrapEvaluate cfg req = Outcome.approve ↔
      req.requester ∈ cfg.allowList ∧ req.orgs = cfg.expectedOrgs ∧
        req.usages = cfg.expectedUsages) ∧
    (req.requester ∉ cfg.allowList →
      bootstrapEvaluate cfg req = Outcome.noOpinion) := by
  constructor
  · unfold bootstrapEvaluate
    split
    · simp_all
    · simp_all
  · intro hmem
    unfold bootstrapEvaluate
    split
    · simp_all
    · rfl

/-- Witness for C1: with allow-list `["bootstrap-sa"]`, the non-member
requester `"random-user"` receives NoOpinion even with a fully matching
profile. -/
theorem bootstrap_approve_iff_witness :
    bootstrapEvaluate
      ⟨["bootstrap-sa"], ["system:open-cluster-management:cluster1"],
        ["clientAuth"]⟩
      ⟨"random-user", ["clientAuth"],
        ["system:open-cluster-management:cluster1"],
        DecisionState.pending⟩ = Outcome.noOpinion :=
  (bootstrap_approve_iff
    ⟨["bootstrap-sa"], ["system:open-cluster-management:cluster1"],
      ["clientAuth"]⟩
    ⟨"random-user", ["clientAuth"],
      ["system:open-cluster-management:cluster1"],
      DecisionState.pending⟩).2 (by decide)

/-- C3: whenever the capability probe reports the Current (v1) schema as
supported, the Current variant is the one constructed, regardless of whether
the Legacy (v1beta1) schema is supported and regardless of the compatibility
feature flag. -/
theorem current_supported_selects_current (gates : FeatureGates)
    (legacySupported : Bool) :
    constructedCSRControllers gates (ProbeResult.ok true legacySupported) =
      Except.ok [SchemaVariant.current] := by
  unfold constructedCSRControllers legacyControllerPhase
  cases hf : gates.v1beta1CSRAPICompatibility <;> simp [hf]

/-- C4: the policy chain is resolved once from the gates: the Renewal Policy
is always first, and the Bootstrap Policy is appended after it exactly when
the `ManagedClusterAutoApproval` gate is enabled — the list is a function of
the gates alone, not of any request. -/
theorem csr_reconciles_chain (gates : FeatureGates) :
    csrReconciles gates =
      (if gates.managedClusterAutoApproval then
        [PolicyId.renewal, PolicyId.bootstrap]
      else [PolicyId.renewal]) ∧
    (csrReconciles gates).head? = some PolicyId.renewal ∧
    (PolicyId.bootstrap ∈ csrReconciles gates ↔
      gates.managedClusterAutoApproval = true) := by
  unfold csrReconciles
  cases hf : gates.managedClusterAutoApproval <;> simp [hf]

/-- C2 counterexample: with the `V1beta1CSRAPICompatibility` gate disabled and
the cluster reporting the Current (v1) schema unsupported (and even Legacy
supported), the selector does not fail with a DiscoveryError: it succeeds and
constructs the Current pipeline. -/
theorem compat_flag_disabled_not_fatal :
    constructedCSRControllers
      (FeatureGates.mk false false false) (ProbeResult.ok false true) =
      Except.ok [SchemaVariant.current] := rfl

/-- C2 amended: when the Current schema is unsupported and the
legacy-compatibility feature flag is disabled, the Compatibility Selector does
not fail — no discovery probe is performed and the Current pipeline is
constructed unconditionally. -/
theorem compat_current_unsupported_flag_disabled (gates : FeatureGates)
    (legacySupported : Bool)
    (h : gates.v1beta1CSRAPICompatibility = false) :
    constructedCSRControllers gates (ProbeResult.ok false legacySupported) =
      Except.ok [SchemaVariant.current] ∧ probeCalls gates = 0 := by
  unfold constructedCSRControllers legacyControllerPhase probeCalls
  simp [h]

/-- Witness for the amended C2. -/
theorem compat_current_unsupported_flag_disabled_witness :
    constructedCSRControllers
      (FeatureGates.mk true false true) (ProbeResult.ok false false) =
      Except.ok [SchemaVariant.current] ∧
    probeCalls (FeatureGates.mk true false true) = 0 :=
  compat_current_unsupported_flag_disabled
    (FeatureGates.mk true false true) false (by decide)

/-- C5: when the probe is consulted (compatibility gate enabled) and it fails,
`RunControllerManager` aborts with the error wrapped in
"failed CSR api discovery", and the probe is invoked exactly once — no
internal retry. -/
theorem discovery_error_fatal (gates : FeatureGates) (msg : String)
    (h : gates.v1beta1CSRAPICompatibility = true) :
    constructedCSRControllers gates (ProbeResult.failed msg) =
      Except.error (wrapDiscoveryError msg) ∧ probeCalls gates = 1 := by
  unfold constructedCSRControllers legacyControllerPhase probeCalls
  simp [h]

/-- Witness for C5. -/
theorem discovery_error_fatal_witness :
    constructedCSRControllers
      (FeatureGates.mk false true false) (ProbeResult.failed "boom") =
      Except.error (wrapDiscoveryError "boom") ∧
    probeCalls (FeatureGates.mk false true false) = 1 :=
  discovery_error_fatal (FeatureGates.mk false true false) "boom" (by decide)

/-- C6: whenever construction succeeds, exactly one CSR approving controller
is constructed — the list of constructed controllers is a singleton of one
variant (Current xor Legacy) — and the capability probe is invoked at most
once, so the choice cannot be re-made or re-probed. -/
theorem exactly_one_variant (gates : FeatureGates) (probe : ProbeResult)
    (l : List SchemaVariant)
    (h : constructedCSRControllers gates probe = Except.ok l) :
    (∃ v, l = [v]) ∧ probeCalls gates ≤ 1 := by
  constructor
  · unfold constructedCSRControllers at h
    cases hp : legacyControllerPhase gates probe with
    | error e => rw [hp] at h; exact absurd h (by simp)
    | ok o =>
      cases o with
      | none =>
        rw [hp] at h
        simp at h
        exact ⟨SchemaVariant.current, h.symm⟩
      | some v =>
        rw [hp] at h
        simp at h
        exact ⟨v, h.symm⟩
  · unfold probeCalls
    cases hf : gates.v1beta1CSRAPICompatibility <;> simp

/-- Witness for C6. -/
theorem exactly_one_variant_witness :
    (∃ v, [SchemaVariant.legacy] = [v]) ∧
    probeCalls (FeatureGates.mk false true false) ≤ 1 :=
  exactly_one_variant (FeatureGates.mk false true false)
    (ProbeResult.ok false true) [SchemaVariant.legacy] rfl

/-- C9: when the `V1beta1CSRAPICompatibility` gate is disabled, no capability
discovery probe is performed at all, and the Current (v1) approving controller
is constructed whatever the probe would have answered — including when the
cluster does not support the Current schema. -/
theorem flag_disabled_unconditional_current (gates : FeatureGates)
    (probe : ProbeResult) (h : gates.v1beta1CSRAPICompatibility = false) :
    probeCalls gates = 0 ∧
    constructedCSRControllers gates probe = Except.ok [SchemaVariant.current] := by
  unfold constructedCSRControllers legacyControllerPhase probeCalls
  simp [h]

/-- Witness for C9. -/
theorem flag_disabled_unconditional_current_witness :
    probeCalls (FeatureGates.mk false false false) = 0 ∧
    constructedCSRControllers
      (FeatureGates.mk false false false) (ProbeResult.failed "unused") =
      Except.ok [SchemaVariant.current] :=
  flag_disabled_unconditional_current
    (FeatureGates.mk false false false) (ProbeResult.failed "unused")
    (by decide)

/-- C7: the decision state leaves Pending at most once — there is at most one
iteration index at which the iterated chain moves the request out of Pending —
and re-invoking the chain on a request that is already Approved or Denied
issues no write (zero writes, request unchanged). -/
theorem decision_leaves_pending_once
    (accepted : List (String × List String × List String))
    (cfg : BootstrapConfig) (policies : List PolicyId)
    (req : RegistrationRequest) :
    (req.decision ≠ DecisionState.pending →
      runChain accepted cfg policies req = (req, 0)) ∧
    (∀ i j,
      ((chainIter accepted cfg policies req i).decision =
          DecisionState.pending ∧
        (chainIter accepted cfg policies req (i + 1)).decision ≠
          DecisionState.pending) →
      ((chainIter accepted cfg policies req j).decision =
          DecisionState.pending ∧
        (chainIter accepted cfg policies req (j + 1)).decision ≠
          DecisionState.pending) → i = j) := by
  constructor
  · intro h
    exact runChain_of_terminal accepted cfg policies req h
  · intro i j hi hj
    rcases Nat.lt_trichotomy i j with hlt | heq | hgt
    · exfalso
      obtain ⟨n, hn⟩ := Nat.le.dest hlt
      have hst := chainIter_stable accepted cfg policies req (i + 1) hi.2 n
      rw [hn] at hst
      have hj1 := hj.1
      rw [hst] at hj1
      exact hi.2 hj1
    · exact heq
    · exfalso
      obtain ⟨n, hn⟩ := Nat.le.dest hgt
      have hst := chainIter_stable accepted cfg policies req (j + 1) hj.2 n
      rw [hn] at hst
      have hi1 := hi.1
      rw [hst] at hi1
      exact hj.2 hi1

/-- Witness for C7: re-running the chain on an already-approved request leaves
it unchanged with zero writes. -/
theorem decision_leaves_pending_once_witness :
    runChain [] ⟨[], [], []⟩ [PolicyId.renewal]
      ⟨"cluster1", [], [], DecisionState.approved⟩ =
      (⟨"cluster1", [], [], DecisionState.approved⟩, 0) :=
  (decision_leaves_pending_once [] ⟨[], [], []⟩ [PolicyId.renewal]
    ⟨"cluster1", [], [], DecisionState.approved⟩).1 (by decide)

/-- C8: with staleness threshold T = 300 s (heartbeat interval R = 60 s), the
heartbeat ages [30, 90, 150, 210, 270, 330] produce availability
[Available, Available, Available, Available, Available, Unreachable]; in
general one step yields Unreachable exactly when the age exceeds T, never at
any smaller age. -/
theorem liveness_sequence :
    livenessTrace 300 Availability.unknown [30, 90, 150, 210, 270, 330] =
      [Availability.available, Availability.available, Availability.available,
        Availability.available, Availability.available,
        Availability.unreachable] ∧
    ∀ (age : Nat) (a : Availability),
      (livenessStep 300 age a = Availability.unreachable ↔ 300 < age) := by
  constructor
  · decide
  · intro age a
    unfold livenessStep
    split
    · simp [*]
    · cases a <;> simp [*]

/-- C10: every controller started by `RunControllerManager` is run with
exactly one worker: each `go c.Run(ctx, 1)` call passes worker count 1, for
all ten unconditional controllers and the two `DefaultClusterSet`-gated ones
alike. -/
theorem all_controllers_single_worker (gates : FeatureGates) :
    ((startedControllers gates).all (fun c => c.2 == 1)) = true ∧
    (startedControllers gates).length =
      (if gates.defaultClusterSet then 12 else 10) := by
  cases hb : gates.defaultClusterSet <;> simp [startedControllers, hb]

end Hub
